import Mathlib

/-!
Verification of the CapNest backend's response-normalization and fallback layer.

The development shallowly embeds the two Express entry points
(`src/server.js` and `src/integrated-server.js`): the credit heuristic,
the AI-response parsing step, the document-result extractor, and the three
request handlers, with each external collaborator (the chat-completion call,
the document-analysis call, and the JavaScript `JSON.parse` builtin) modelled
as an explicit parameter so that every handler is a pure function of the
request and the external outcome.
-/

namespace CapNest

/-- JSON-like JavaScript values, as produced by `JSON.parse` and sent back by
`res.json`. Numbers are modelled as rationals. -/
inductive Json where
  | null
  | bool (b : Bool)
  | num (q : ℚ)
  | str (s : String)
  | arr (elems : List Json)
  | obj (fields : List (String × Json))

/-- Whether a JSON value is an object that carries a field named `k`. -/
def Json.hasKey : Json → String → Bool
  | .obj fields, k => fields.any (fun f => f.1 == k)
  | _, _ => false

/-- Whether a JSON value carries all four fields of an `EligibilityAnalysis`:
`approvalProbability`, `riskLevel`, `recommendations`, `suitableBanks`. -/
def Json.hasFourKeys (j : Json) : Bool :=
  j.hasKey "approvalProbability" && j.hasKey "riskLevel" &&
    j.hasKey "recommendations" && j.hasKey "suitableBanks"

/-- `creditScore >= 750 ? 90 : creditScore >= 700 ? 75 : creditScore >= 650 ? 55 : 35`
(src/server.js line 91 and line 112; identical in src/integrated-server.js). -/
def approvalProbability (creditScore : Int) : Int :=
  if creditScore ≥ 750 then 90
  else if creditScore ≥ 700 then 75
  else if creditScore ≥ 650 then 55
  else 35

/-- `creditScore >= 700 ? 'Low' : creditScore >= 600 ? 'Medium' : 'High'`
(src/server.js line 92 and line 113; identical in src/integrated-server.js). -/
def riskLevel (creditScore : Int) : String :=
  if creditScore ≥ 700 then "Low"
  else if creditScore ≥ 600 then "Medium"
  else "High"

/-- `['HDFC Bank', 'SBI', 'ICICI Bank']` (src/server.js lines 94 and 115). -/
def suitableBanksDefault : Json :=
  Json.arr [Json.str "HDFC Bank", Json.str "SBI", Json.str "ICICI Bank"]

/-- The structured analysis the eligibility handler builds when `JSON.parse`
throws (src/server.js lines 90-95): heuristic probability and risk for the
request's credit score, the raw AI text as `recommendations`, and the fixed
bank list. -/
def heuristicAnalysis (rawText : String) (creditScore : Int) : Json :=
  Json.obj
    [("approvalProbability", Json.num (approvalProbability creditScore)),
     ("riskLevel", Json.str (riskLevel creditScore)),
     ("recommendations", Json.str rawText),
     ("suitableBanks", suitableBanksDefault)]

/-- The `try { analysis = JSON.parse(aiResponse) } catch` step of the
eligibility handler (src/server.js lines 85-96). The outcome of the JavaScript
`JSON.parse(rawText)` builtin is passed in as `decoded` (`none` when it
throws, `some v` when it returns the value `v`); on success the decoded value
is used as-is, on failure the handler synthesizes `heuristicAnalysis`. -/
def parseAnalysis (decoded : Option Json) (rawText : String) (creditScore : Int) : Json :=
  match decoded with
  | some v => v
  | none => heuristicAnalysis rawText creditScore

/-- Claim C1: for every integer credit score the heuristic ternaries return
exactly the pair given by the spec's boundary table, including at the
boundary scores 749/750, 699/700, 649/650, 599/600. -/
theorem heuristic_matches_boundary_table (score : Int) :
    (approvalProbability score, riskLevel score) =
      (if 750 ≤ score then ((90 : Int), "Low")
       else if 700 ≤ score then (75, "Low")
       else if 650 ≤ score then (55, "Medium")
       else if 600 ≤ score then (35, "Medium")
       else (35, "High")) := by
  simp only [approvalProbability, riskLevel, ge_iff_le]
  split_ifs <;> first | rfl | omega

/-- Claim C2: when the raw AI reply JSON-decodes to an object carrying the
four expected keys, the parsing step returns that decoded object unchanged;
when decoding fails, it returns the heuristic probability and risk for the
request's credit score, the raw text verbatim as `recommendations`, and the
fixed three-bank list. -/
theorem parser_decoded_or_fallback (decoded : Option Json) (rawText : String)
    (creditScore : Int) :
    (∀ v, decoded = some v → v.hasFourKeys = true →
      parseAnalysis decoded rawText creditScore = v) ∧
    (decoded = none →
      parseAnalysis decoded rawText creditScore =
        Json.obj
          [("approvalProbability", Json.num (approvalProbability creditScore)),
           ("riskLevel", Json.str (riskLevel creditScore)),
           ("recommendations", Json.str rawText),
           ("suitableBanks",
             Json.arr [Json.str "HDFC Bank", Json.str "SBI", Json.str "ICICI Bank"])]) := by
  constructor
  · rintro v rfl _
    rfl
  · rintro rfl
    rfl

/-- A sample decoded AI reply carrying all four expected keys. -/
def sampleOkAnalysis : Json :=
  Json.obj
    [("approvalProbability", Json.num 80),
     ("riskLevel", Json.str "Low"),
     ("recommendations", Json.str "ok"),
     ("suitableBanks", Json.arr [Json.str "X"])]

/-- Witness for C2: the parsing step at the spec's concrete examples — a
well-formed decoded object is returned unchanged, and `JSON.parse` failing on
"not json" with credit score 720 yields probability 75, risk "Low", the raw
text, and the three banks. -/
theorem parser_decoded_or_fallback_witness :
    parseAnalysis (some sampleOkAnalysis) "raw" 0 = sampleOkAnalysis ∧
    parseAnalysis none "not json" 720 =
      Json.obj
        [("approvalProbability", Json.num 75),
         ("riskLevel", Json.str "Low"),
         ("recommendations", Json.str "not json"),
         ("suitableBanks",
           Json.arr [Json.str "HDFC Bank", Json.str "SBI", Json.str "ICICI Bank"])] := by
  constructor
  · exact (parser_decoded_or_fallback (some sampleOkAnalysis) "raw" 0).1
      sampleOkAnalysis rfl rfl
  · have h := (parser_decoded_or_fallback none "not json" 720).2 rfl
    rw [h]
    rfl

/-- The body of a POST /api/check-eligibility request
(src/server.js line 52). -/
structure EligibilityRequest where
  loanType : String
  amount : Int
  income : Int
  creditScore : Int
  employment : String
  existingLoans : Bool

/-- Outcome of an awaited external call: either the value it resolved to, or
the `message` of the error it threw. -/
inductive CallResult (α : Type) where
  | ok (v : α)
  | err (msg : String)

/-- The prompt the standalone server interpolates for the chat-completion
call (src/server.js lines 54-69); currency amounts carry the rupee sign
U+20B9. -/
def buildEligibilityPrompt (req : EligibilityRequest) : String :=
  "You are a loan eligibility expert. Analyze this loan application:\n    \nLoan Type: "
    ++ req.loanType
    ++ "\nRequested Amount: ₹" ++ toString req.amount
    ++ "\nMonthly Income: ₹" ++ toString req.income
    ++ "\nCredit Score: " ++ toString req.creditScore
    ++ "\nEmployment: " ++ req.employment
    ++ "\nExisting Loans: " ++ (if req.existingLoans then "Yes" else "No")
    ++ "\n\nProvide a detailed eligibility analysis with:\n1. Approval probability (percentage)\n2. Risk assessment (Low/Medium/High)\n3. Recommendations\n4. Suitable banks\n\nFormat as JSON with keys: approvalProbability, riskLevel, recommendations, suitableBanks"

/-- The same prompt as interpolated by src/integrated-server.js lines 64-79;
its source file carries the mojibake byte sequence U+00E2 U+201A U+00B9 in
place of each rupee sign. -/
def buildEligibilityPromptIntegrated (req : EligibilityRequest) : String :=
  "You are a loan eligibility expert. Analyze this loan application:\n    \nLoan Type: "
    ++ req.loanType
    ++ "\nRequested Amount: â‚¹" ++ toString req.amount
    ++ "\nMonthly Income: â‚¹" ++ toString req.income
    ++ "\nCredit Score: " ++ toString req.creditScore
    ++ "\nEmployment: " ++ req.employment
    ++ "\nExisting Loans: " ++ (if req.existingLoans then "Yes" else "No")
    ++ "\n\nProvide a detailed eligibility analysis with:\n1. Approval probability (percentage)\n2. Risk assessment (Low/Medium/High)\n3. Recommendations\n4. Suitable banks\n\nFormat as JSON with keys: approvalProbability, riskLevel, recommendations, suitableBanks"

/-- The response body of POST /api/check-eligibility. -/
structure EligibilityResponse where
  status : Nat
  success : Bool
  analysis : Json
  aiPowered : Bool
  errorMsg : Option String

/-- `'Based on your credit score and income, you have a good chance of approval.'`
(src/server.js line 114). -/
def degradedRecommendationText : String :=
  "Based on your credit score and income, you have a good chance of approval."

/-- The analysis object built in the eligibility handler's catch block
(src/server.js lines 111-116). -/
def degradedAnalysis (creditScore : Int) : Json :=
  Json.obj
    [("approvalProbability", Json.num (approvalProbability creditScore)),
     ("riskLevel", Json.str (riskLevel creditScore)),
     ("recommendations", Json.str degradedRecommendationText),
     ("suitableBanks", suitableBanksDefault)]

/-- The POST /api/check-eligibility handler (src/server.js lines 50-121).
`call` is the outcome of `openAIClient.getChatCompletions` followed by
reading `result.choices[0].message.content` (any throw along that path lands
in the catch block); `decode` is the behaviour of the `JSON.parse` builtin. -/
def checkEligibility (req : EligibilityRequest) (call : CallResult String)
    (decode : String → Option Json) : EligibilityResponse :=
  match call with
  | .ok aiResponse =>
      { status := 200
        success := true
        analysis := parseAnalysis (decode aiResponse) aiResponse req.creditScore
        aiPowered := true
        errorMsg := none }
  | .err msg =>
      { status := 200
        success := true
        analysis := degradedAnalysis req.creditScore
        aiPowered := false
        errorMsg := some msg }

/-- The POST /api/check-eligibility handler of src/integrated-server.js
(lines 60-128); its text is character-identical to the standalone one apart
from the prompt's rupee bytes. -/
def checkEligibilityIntegrated (req : EligibilityRequest) (call : CallResult String)
    (decode : String → Option Json) : EligibilityResponse :=
  match call with
  | .ok aiResponse =>
      { status := 200
        success := true
        analysis := parseAnalysis (decode aiResponse) aiResponse req.creditScore
        aiPowered := true
        errorMsg := none }
  | .err msg =>
      { status := 200
        success := true
        analysis := degradedAnalysis req.creditScore
        aiPowered := false
        errorMsg := some msg }

/-- Claim C3: when the outbound chat-completion call throws, the eligibility
handler still responds HTTP 200 with success true, aiPowered false, the
error's message, and an analysis carrying the heuristic probability and risk
for the request's credit score together with the fixed narrative string and
the three-bank list. -/
theorem eligibility_degraded_response (req : EligibilityRequest) (msg : String)
    (decode : String → Option Json) :
    (checkEligibility req (.err msg) decode).status = 200 ∧
    (checkEligibility req (.err msg) decode).success = true ∧
    (checkEligibility req (.err msg) decode).aiPowered = false ∧
    (checkEligibility req (.err msg) decode).errorMsg = some msg ∧
    (checkEligibility req (.err msg) decode).analysis =
      Json.obj
        [("approvalProbability", Json.num (approvalProbability req.creditScore)),
         ("riskLevel", Json.str (riskLevel req.creditScore)),
         ("recommendations",
           Json.str "Based on your credit score and income, you have a good chance of approval."),
         ("suitableBanks",
           Json.arr [Json.str "HDFC Bank", Json.str "SBI", Json.str "ICICI Bank"])] :=
  ⟨rfl, rfl, rfl, rfl, rfl⟩

/-- A span of the document-analysis result with an optional `content` string
(the shape behind `pair.key?.content`). -/
structure RawSpan where
  content : Option String

/-- One entry of `result.keyValuePairs`: `key` and `value` spans and a
`confidence` number, any of which may be absent. -/
structure RawKeyValuePair where
  key : Option RawSpan
  value : Option RawSpan
  confidence : Option ℚ

/-- The document-analysis result returned by `poller.pollUntilDone()`
(src/server.js line 138): an optional page collection (only its length is
read), optional extracted `content`, and optional `keyValuePairs`. Page
objects are represented by their index. -/
structure DocResult where
  pages : Option (List Nat)
  content : Option String
  keyValuePairs : Option (List RawKeyValuePair)

/-- One normalized key-value entry of the extracted data
(src/server.js lines 156-160). -/
structure ExtractedKeyValuePair where
  key : String
  value : String
  confidence : ℚ

/-- `extractedData` (src/server.js lines 141-161). -/
structure DocumentExtraction where
  documentType : String
  pages : Nat
  text : String
  keyValuePairs : List ExtractedKeyValuePair
  tables : List Json

/-- JavaScript `s.substring(0, n)`: the first `n` characters of `s`. -/
def jsSubstring (s : String) (n : Nat) : String :=
  String.mk (s.toList.take n)

/-- `pair => ({ key: pair.key?.content || '', value: pair.value?.content || '',
confidence: pair.confidence || 0 })` (src/server.js lines 156-160). The
JavaScript `|| ''` and `|| 0` defaults also map an empty-string content and a
zero confidence to themselves, so `getD` is an exact model. -/
def mapKeyValuePair (pair : RawKeyValuePair) : ExtractedKeyValuePair :=
  { key := ((pair.key.bind RawSpan.content).getD "")
    value := ((pair.value.bind RawSpan.content).getD "")
    confidence := pair.confidence.getD 0 }

/-- The normalization of a successful document-analysis result
(src/server.js lines 141-161): `pages?.length || 0`, the first 1000
characters of `content` when it is truthy, the first 10 key-value pairs when
the collection is present (a JavaScript array is truthy even when empty), and
always-empty `tables`. -/
def extractDocument (mimetype : String) (result : DocResult) : DocumentExtraction :=
  { documentType := mimetype
    pages := match result.pages with
      | none => 0
      | some l => l.length
    text := match result.content with
      | none => ""
      | some s => if s = "" then "" else jsSubstring s 1000
    keyValuePairs := match result.keyValuePairs with
      | none => []
      | some l => (l.take 10).map mapKeyValuePair
    tables := [] }

/-- Claim C4: the extractor reports the page count (0 when the collection is
absent), truncates the extracted content to exactly its first 1000 characters
(unchanged when not longer, empty when absent), keeps exactly the first 10
key-value pairs in their original order with missing sub-fields defaulted,
and always returns empty tables. -/
theorem extractDocument_bounds (mimetype : String) (result : DocResult) :
    (result.pages = none → (extractDocument mimetype result).pages = 0) ∧
    (∀ pl, result.pages = some pl → (extractDocument mimetype result).pages = pl.length) ∧
    (result.content = none → (extractDocument mimetype result).text = "") ∧
    (∀ s, result.content = some s → s.length ≤ 1000 →
      (extractDocument mimetype result).text = s) ∧
    (∀ s, result.content = some s → 1000 < s.length →
      (extractDocument mimetype result).text.toList = s.toList.take 1000 ∧
      (extractDocument mimetype result).text.length = 1000) ∧
    (result.keyValuePairs = none → (extractDocument mimetype result).keyValuePairs = []) ∧
    (∀ l, result.keyValuePairs = some l →
      (extractDocument mimetype result).keyValuePairs = (l.take 10).map mapKeyValuePair ∧
      (extractDocument mimetype result).keyValuePairs.length = min 10 l.length ∧
      ∀ i : Nat, i < 10 →
        (extractDocument mimetype result).keyValuePairs[i]? =
          l[i]?.map mapKeyValuePair) ∧
    (extractDocument mimetype result).tables = [] := by
  refine ⟨?_, ?_, ?_, ?_, ?_, ?_, ?_, rfl⟩
  · intro h
    simp [extractDocument, h]
  · intro pl h
    simp [extractDocument, h]
  · intro h
    simp [extractDocument, h]
  · intro s h hle
    simp only [extractDocument, h]
    rcases eq_or_ne s "" with rfl | hs
    · simp
    · simp only [hs, if_neg hs, jsSubstring]
      have : s.toList.take 1000 = s.toList := List.take_of_length_le hle
      rw [this]
      cases s
      rfl
  · intro s h hlt
    have hs : s ≠ "" := by
      intro hs
      rw [hs] at hlt
      simp [String.length] at hlt
    simp only [extractDocument, h, if_neg hs, jsSubstring]
    constructor
    · rfl
    · show (s.toList.take 1000).length = 1000
      rw [List.length_take]
      exact Nat.min_eq_left (Nat.le_of_lt hlt)
  · intro h
    simp [extractDocument, h]
  · intro l h
    refine ⟨by simp [extractDocument, h], ?_, ?_⟩
    · simp [extractDocument, h, List.length_take]
    · intro i hi
      simp only [extractDocument, h]
      rw [List.getElem?_map, List.getElem?_take_of_lt hi]

/-- A sample extracted content of 1001 characters. -/
def sampleDocContent : String :=
  String.mk (List.replicate 1001 'a')

/-- A sample document-analysis result with 3 pages, 1001 characters of
content, and 12 key-value pairs. -/
def sampleDocResult : DocResult :=
  { pages := some [0, 1, 2]
    content := some sampleDocContent
    keyValuePairs :=
      some (List.replicate 12
        { key := none, value := some { content := some "v" }, confidence := none }) }

/-- Witness for C4: on a result with 3 pages, 1001 characters of content and
12 key-value pairs, the extractor reports 3 pages, exactly 1000 characters of
text, and exactly 10 key-value pairs. -/
theorem extractDocument_bounds_witness :
    (extractDocument "application/pdf" sampleDocResult).pages = 3 ∧
    (extractDocument "application/pdf" sampleDocResult).text.length = 1000 ∧
    (extractDocument "application/pdf" sampleDocResult).keyValuePairs.length = 10 := by
  refine ⟨?_, ?_, ?_⟩
  · have h := (extractDocument_bounds "application/pdf" sampleDocResult).2.1 [0, 1, 2] rfl
    simpa using h
  · exact ((extractDocument_bounds "application/pdf" sampleDocResult).2.2.2.2.1
      sampleDocContent rfl (by
        have h : sampleDocContent.length = (List.replicate 1001 'a').length := rfl
        rw [h, List.length_replicate]
        omega)).2
  · have h := ((extractDocument_bounds "application/pdf" sampleDocResult).2.2.2.2.2.2.1
      _ rfl).2.1
    simpa using h

/-- The uploaded file of a multipart request: `req.file`. -/
structure UploadedFile where
  mimetype : String
  buffer : List Nat

/-- JavaScript `s || dflt` for an optional string: the default is taken both
when the value is absent and when it is the (falsy) empty string. -/
def jsStringOr (s : Option String) (dflt : String) : String :=
  match s with
  | none => dflt
  | some s => if s = "" then dflt else s

/-- One normalized key-value entry rendered back to JSON for the response
body. -/
def extractedKeyValuePairToJson (p : ExtractedKeyValuePair) : Json :=
  Json.obj
    [("key", Json.str p.key),
     ("value", Json.str p.value),
     ("confidence", Json.num p.confidence)]

/-- The `extractedData` object rendered to JSON for the response body. -/
def documentExtractionToJson (e : DocumentExtraction) : Json :=
  Json.obj
    [("documentType", Json.str e.documentType),
     ("pages", Json.num (e.pages : ℚ)),
     ("text", Json.str e.text),
     ("keyValuePairs", Json.arr (e.keyValuePairs.map extractedKeyValuePairToJson)),
     ("tables", Json.arr e.tables)]

/-- The `data` object built in the document handler's catch block
(src/server.js lines 175-180): `req.file?.mimetype || 'unknown'`, one page, a
fixed text and a fixed message — and no other fields. -/
def degradedDocData (mimetype : Option String) : Json :=
  Json.obj
    [("documentType", Json.str (jsStringOr mimetype "unknown")),
     ("pages", Json.num 1),
     ("text", Json.str "Document received and validated"),
     ("message", Json.str "Document appears clear and readable")]

/-- The response body of POST /api/analyze-document. -/
structure DocResponse where
  status : Nat
  success : Bool
  data : Option Json
  aiPowered : Option Bool
  errorMsg : Option String
  message : Option String

/-- The POST /api/analyze-document handler (src/server.js lines 124-185).
`remote` is the outcome of `documentClient.beginAnalyzeDocument` followed by
`poller.pollUntilDone()`; the second component records whether that outbound
call was made. -/
def analyzeDocument (file : Option UploadedFile) (remote : CallResult DocResult) :
    DocResponse × Bool :=
  match file with
  | none =>
      ({ status := 400
         success := false
         data := none
         aiPowered := none
         errorMsg := some "No document uploaded"
         message := none }, false)
  | some f =>
      match remote with
      | .ok result =>
          ({ status := 200
             success := true
             data := some (documentExtractionToJson (extractDocument f.mimetype result))
             aiPowered := some true
             errorMsg := none
             message := some "Document analyzed successfully" }, true)
      | .err msg =>
          ({ status := 200
             success := true
             data := some (degradedDocData (some f.mimetype))
             aiPowered := some false
             errorMsg := some msg
             message := none }, true)

/-- The POST /api/analyze-document handler of src/integrated-server.js
(lines 131-188); character-identical to the standalone one. -/
def analyzeDocumentIntegrated (file : Option UploadedFile) (remote : CallResult DocResult) :
    DocResponse × Bool :=
  match file with
  | none =>
      ({ status := 400
         success := false
         data := none
         aiPowered := none
         errorMsg := some "No document uploaded"
         message := none }, false)
  | some f =>
      match remote with
      | .ok result =>
          ({ status := 200
             success := true
             data := some (documentExtractionToJson (extractDocument f.mimetype result))
             aiPowered := some true
             errorMsg := none
             message := some "Document analyzed successfully" }, true)
      | .err msg =>
          ({ status := 200
             success := true
             data := some (degradedDocData (some f.mimetype))
             aiPowered := some false
             errorMsg := some msg
             message := none }, true)

/-- Claim C5: with no file attached the document handler responds HTTP 400
with success false, makes no outbound call, and its response is independent
of the external service's behaviour; the outbound call is made exactly when a
file is present. -/
theorem missing_file_rejected_no_call (remote remote2 : CallResult DocResult)
    (f : UploadedFile) :
    (analyzeDocument none remote).1.status = 400 ∧
    (analyzeDocument none remote).1.success = false ∧
    (analyzeDocument none remote).2 = false ∧
    analyzeDocument none remote = analyzeDocument none remote2 ∧
    (analyzeDocument (some f) remote).2 = true := by
  refine ⟨rfl, rfl, rfl, rfl, ?_⟩
  cases remote <;> rfl

/-- A sample uploaded PDF file. -/
def sampleUploadedFile : UploadedFile :=
  { mimetype := "application/pdf", buffer := [37, 80, 68, 70] }

/-- Counterexample to C7 as stated: at a concrete failing request the
degraded document response's data object carries no `keyValuePairs` and no
`tables` field at all, so it is not a fully-formed five-field
DocumentExtraction. -/
theorem degraded_document_missing_fields :
    (analyzeDocument (some sampleUploadedFile)
        (CallResult.err "getaddrinfo ENOTFOUND")).1.data =
      some (degradedDocData (some "application/pdf")) ∧
    Json.hasKey (degradedDocData (some "application/pdf")) "keyValuePairs" = false ∧
    Json.hasKey (degradedDocData (some "application/pdf")) "tables" = false :=
  ⟨rfl, rfl, rfl⟩

/-- C7 as amended: when a file is attached and the remote call or
normalization throws, the handler responds HTTP 200 with success true,
aiPowered false and the failure's message, and a locally built data object
carrying the file's mime type (or "unknown"), one page, a fixed text and a
fixed message — but no `keyValuePairs` or `tables` fields. -/
theorem document_degraded_response (f : UploadedFile) (msg : String) :
    (analyzeDocument (some f) (.err msg)).1.status = 200 ∧
    (analyzeDocument (some f) (.err msg)).1.success = true ∧
    (analyzeDocument (some f) (.err msg)).1.aiPowered = some false ∧
    (analyzeDocument (some f) (.err msg)).1.errorMsg = some msg ∧
    (analyzeDocument (some f) (.err msg)).1.data =
      some (Json.obj
        [("documentType", Json.str (jsStringOr (some f.mimetype) "unknown")),
         ("pages", Json.num 1),
         ("text", Json.str "Document received and validated"),
         ("message", Json.str "Document appears clear and readable")]) ∧
    Json.hasKey (degradedDocData (some f.mimetype)) "keyValuePairs" = false ∧
    Json.hasKey (degradedDocData (some f.mimetype)) "tables" = false :=
  ⟨rfl, rfl, rfl, rfl, rfl, rfl, rfl⟩

/-- Counterexample to C6 as stated: `JSON.parse "null"` succeeds in
JavaScript with the value `null`, the handler then assigns that value to
`analysis` unchecked (src/server.js line 87), and the resulting analysis
carries none of the four EligibilityAnalysis fields. -/
theorem parse_json_null_not_fully_populated :
    (parseAnalysis (some Json.null) "null" 720).hasFourKeys = false :=
  rfl

/-- C6 as amended: the parsing step never fails, and the analysis it returns
is fully populated whenever the raw text fails to JSON-decode (the heuristic
fallback); but any successfully decoded JSON value — even null, a number, an
array, or an object missing keys — is returned as-is and may be partial. -/
theorem parser_never_fails_fallback_populated (decoded : Option Json)
    (rawText : String) (creditScore : Int) :
    (decoded = none →
      (parseAnalysis decoded rawText creditScore).hasFourKeys = true) ∧
    (∀ v, decoded = some v → parseAnalysis decoded rawText creditScore = v) := by
  constructor
  · rintro rfl
    rfl
  · rintro v rfl
    rfl

/-- Witness for the amended C6: the fallback analysis at a concrete failing
decode is fully populated, and a decoded `null` is passed through as-is. -/
theorem parser_never_fails_fallback_populated_witness :
    (parseAnalysis none "service unavailable" 640).hasFourKeys = true ∧
    parseAnalysis (some Json.null) "null" 640 = Json.null :=
  ⟨(parser_never_fails_fallback_populated none "service unavailable" 640).1 rfl,
   (parser_never_fails_fallback_populated (some Json.null) "null" 640).2 Json.null rfl⟩

/-- A JavaScript value read from `req.body.creditScore`: an integer, the
`undefined` value, or a non-numeric value (whose numeric coercion in a
comparison is NaN). -/
inductive JsNum where
  | num (n : Int)
  | undef
  | nan

/-- JavaScript `x >= c`: every comparison against `undefined` or NaN is
false. -/
def JsNum.ge : JsNum → Int → Bool
  | .num n, c => decide (c ≤ n)
  | .undef, _ => false
  | .nan, _ => false

/-- The probability ternary of src/server.js lines 91 and 112 evaluated under
JavaScript comparison semantics for the raw `req.body.creditScore` value. -/
def approvalProbabilityJs (creditScore : JsNum) : Int :=
  if creditScore.ge 750 then 90
  else if creditScore.ge 700 then 75
  else if creditScore.ge 650 then 55
  else 35

/-- The risk ternary of src/server.js lines 92 and 113 evaluated under
JavaScript comparison semantics for the raw `req.body.creditScore` value. -/
def riskLevelJs (creditScore : JsNum) : String :=
  if creditScore.ge 700 then "Low"
  else if creditScore.ge 600 then "Medium"
  else "High"

/-- Counterexample to C8 as stated: on an undefined credit score every
comparison is false and the heuristic silently returns probability 35 and
risk "High"; no InvalidInput error is raised anywhere on this path. -/
theorem heuristic_undefined_silently_defaults :
    approvalProbabilityJs JsNum.undef = 35 ∧ riskLevelJs JsNum.undef = "High" :=
  ⟨rfl, rfl⟩

/-- C8 as amended: the heuristic is total over integer inputs, where it
agrees with the boundary-table function; but on an undefined or non-numeric
credit score it does not fail — it silently defaults to probability 35 and
risk "High". -/
theorem heuristic_total_silent_default (v : JsNum) :
    (∀ n : Int, v = JsNum.num n →
      approvalProbabilityJs v = approvalProbability n ∧
      riskLevelJs v = riskLevel n) ∧
    (v = JsNum.undef ∨ v = JsNum.nan →
      approvalProbabilityJs v = 35 ∧ riskLevelJs v = "High") := by
  constructor
  · rintro n rfl
    constructor
    · simp only [approvalProbabilityJs, approvalProbability, JsNum.ge,
        decide_eq_true_eq, ge_iff_le]
    · simp only [riskLevelJs, riskLevel, JsNum.ge, decide_eq_true_eq, ge_iff_le]
  · rintro (rfl | rfl)
    · exact ⟨rfl, rfl⟩
    · exact ⟨rfl, rfl⟩

/-- Witness for the amended C8: at credit score 720 the JavaScript-semantics
heuristic agrees with the integer heuristic, and at `undefined` it silently
yields 35 and "High". -/
theorem heuristic_total_silent_default_witness :
    approvalProbabilityJs (JsNum.num 720) = approvalProbability 720 ∧
    riskLevelJs (JsNum.num 720) = riskLevel 720 ∧
    approvalProbabilityJs JsNum.undef = 35 ∧
    riskLevelJs JsNum.undef = "High" :=
  ⟨((heuristic_total_silent_default (JsNum.num 720)).1 720 rfl).1,
   ((heuristic_total_silent_default (JsNum.num 720)).1 720 rfl).2,
   ((heuristic_total_silent_default JsNum.undef).2 (Or.inl rfl)).1,
   ((heuristic_total_silent_default JsNum.undef).2 (Or.inl rfl)).2⟩

/-- The body of a POST /api/loan-recommendations request
(src/server.js line 190). -/
structure RecommendationRequest where
  purpose : String
  income : Int
  creditScore : Int

/-- The prompt the standalone server interpolates for the recommendation
call (src/server.js lines 192-206). -/
def buildRecommendationPrompt (req : RecommendationRequest) : String :=
  "Based on the following user profile, recommend the most suitable loan types:\n    \nPurpose: "
    ++ req.purpose
    ++ "\nMonthly Income: ₹" ++ toString req.income
    ++ "\nCredit Score: " ++ toString req.creditScore
    ++ "\n\nRecommend 3 most suitable loan types from: Personal Loan, Home Loan, Education Loan, Vehicle Loan, Business Loan, Gold Loan, Loan Against Property, PM Mudra Loan.\n\nFor each recommendation, provide:\n1. Loan type\n2. Why it\u0027s suitable\n3. Estimated amount range\n4. Key benefits\n\nFormat as JSON array."

/-- The same prompt as interpolated by src/integrated-server.js
lines 195-209, whose source carries the mojibake bytes in place of the rupee
sign. -/
def buildRecommendationPromptIntegrated (req : RecommendationRequest) : String :=
  "Based on the following user profile, recommend the most suitable loan types:\n    \nPurpose: "
    ++ req.purpose
    ++ "\nMonthly Income: â‚¹" ++ toString req.income
    ++ "\nCredit Score: " ++ toString req.creditScore
    ++ "\n\nRecommend 3 most suitable loan types from: Personal Loan, Home Loan, Education Loan, Vehicle Loan, Business Loan, Gold Loan, Loan Against Property, PM Mudra Loan.\n\nFor each recommendation, provide:\n1. Loan type\n2. Why it\u0027s suitable\n3. Estimated amount range\n4. Key benefits\n\nFormat as JSON array."

/-- One entry of the structured fallback recommendation array. -/
structure LoanRecommendation where
  loanType : String
  reason : String
  amountRange : String
  benefits : List String
deriving DecidableEq

/-- The single fallback recommendation of src/server.js lines 233-238. -/
def fallbackRecommendation : LoanRecommendation :=
  { loanType := "Personal Loan"
    reason := "Flexible and quick approval for general purposes"
    amountRange := "₹50,000 - ₹25,00,000"
    benefits := ["No collateral", "Quick disbursement", "Flexible tenure"] }

/-- The single fallback recommendation of src/integrated-server.js
lines 236-241, whose amount range carries the mojibake bytes in place of each
rupee sign. -/
def fallbackRecommendationIntegrated : LoanRecommendation :=
  { loanType := "Personal Loan"
    reason := "Flexible and quick approval for general purposes"
    amountRange := "â‚¹50,000 - â‚¹25,00,000"
    benefits := ["No collateral", "Quick disbursement", "Flexible tenure"] }

/-- The `recommendations` field of the response: the raw AI text on the
success path, the structured array on the fallback path. -/
inductive RecommendationsValue where
  | text (s : String)
  | list (l : List LoanRecommendation)
deriving DecidableEq

/-- The response body of POST /api/loan-recommendations. -/
structure RecResponse where
  status : Nat
  success : Bool
  recommendations : RecommendationsValue
  aiPowered : Bool
deriving DecidableEq

/-- The POST /api/loan-recommendations handler (src/server.js
lines 188-243). `call` is the outcome of the chat-completion call followed by
reading `result.choices[0].message.content`. -/
def loanRecommendations (call : CallResult String) : RecResponse :=
  match call with
  | .ok aiResponse =>
      { status := 200
        success := true
        recommendations := .text aiResponse
        aiPowered := true }
  | .err _ =>
      { status := 200
        success := true
        recommendations := .list [fallbackRecommendation]
        aiPowered := false }

/-- The POST /api/loan-recommendations handler of src/integrated-server.js
(lines 191-246), identical apart from the fallback amount range's rupee
bytes. -/
def loanRecommendationsIntegrated (call : CallResult String) : RecResponse :=
  match call with
  | .ok aiResponse =>
      { status := 200
        success := true
        recommendations := .text aiResponse
        aiPowered := true }
  | .err _ =>
      { status := 200
        success := true
        recommendations := .list [fallbackRecommendationIntegrated]
        aiPowered := false }

/-- A sample eligibility request. -/
def sampleEligibilityRequest : EligibilityRequest :=
  { loanType := "Home Loan"
    amount := 2500000
    income := 80000
    creditScore := 720
    employment := "Salaried"
    existingLoans := false }

/-- A sample recommendation request. -/
def sampleRecommendationRequest : RecommendationRequest :=
  { purpose := "Education"
    income := 60000
    creditScore := 710 }

/-- Counterexample to C9 as stated: at concrete requests the two entry
points build different outbound prompts (src/integrated-server.js carries
mojibake bytes in place of every rupee sign), and their loan-recommendation
fallback response bodies differ in the amount range string. -/
theorem variant_prompts_and_fallbacks_differ :
    buildEligibilityPrompt sampleEligibilityRequest ≠
      buildEligibilityPromptIntegrated sampleEligibilityRequest ∧
    buildRecommendationPrompt sampleRecommendationRequest ≠
      buildRecommendationPromptIntegrated sampleRecommendationRequest ∧
    loanRecommendations (CallResult.err "boom") ≠
      loanRecommendationsIntegrated (CallResult.err "boom") := by
  refine ⟨by decide, by decide, by decide⟩

/-- C9 as amended: the two entry points implement the same business logic
for the eligibility and document handlers (identical response bodies for
every request, every external outcome, and every `JSON.parse` behaviour) and
for the loan-recommendation success path; but their outbound prompts, and the
fallback recommendation's amount range, differ in the rupee-currency bytes
(the integrated server's source holds mojibake in their place). -/
theorem variants_agree_except_rupee_bytes (req : EligibilityRequest)
    (call : CallResult String) (decode : String → Option Json)
    (file : Option UploadedFile) (remote : CallResult DocResult) (s : String) :
    checkEligibilityIntegrated req call decode = checkEligibility req call decode ∧
    analyzeDocumentIntegrated file remote = analyzeDocument file remote ∧
    loanRecommendationsIntegrated (CallResult.ok s) =
      loanRecommendations (CallResult.ok s) ∧
    buildEligibilityPrompt sampleEligibilityRequest ≠
      buildEligibilityPromptIntegrated sampleEligibilityRequest ∧
    (∀ m : String, loanRecommendationsIntegrated (CallResult.err m) ≠
      loanRecommendations (CallResult.err m)) := by
  refine ⟨?_, ?_, rfl, by decide, ?_⟩
  · cases call <;> rfl
  · cases file with
    | none => rfl
    | some f => cases remote <;> rfl
  · intro m h
    have h2 : RecommendationsValue.list [fallbackRecommendationIntegrated] =
        RecommendationsValue.list [fallbackRecommendation] :=
      congrArg RecResponse.recommendations h
    exact absurd h2 (by decide)

/-- Claim C10: the degraded eligibility response is a function of the
request's credit score and the caught error's message alone — two failing
requests with equal credit scores receive identical response bodies, in both
entry points, whatever their loan type, amount, income, employment, existing
loans, or the `JSON.parse` behaviour. -/
theorem degraded_response_depends_only_on_score_and_error
    (r1 r2 : EligibilityRequest) (msg : String)
    (d1 d2 : String → Option Json) (h : r1.creditScore = r2.creditScore) :
    checkEligibility r1 (.err msg) d1 = checkEligibility r2 (.err msg) d2 ∧
    checkEligibilityIntegrated r1 (.err msg) d1 =
      checkEligibilityIntegrated r2 (.err msg) d2 := by
  constructor
  · simp only [checkEligibility, h]
  · simp only [checkEligibilityIntegrated, h]

/-- A second sample eligibility request: credit score 720 like
`sampleEligibilityRequest`, every other field different. -/
def sampleEligibilityRequestOther : EligibilityRequest :=
  { loanType := "Business Loan"
    amount := 900000
    income := 150000
    creditScore := 720
    employment := "Self-employed"
    existingLoans := true }

/-- Witness for C10: two concrete failing requests agreeing only on the
credit score receive identical degraded responses. -/
theorem degraded_response_depends_only_on_score_and_error_witness :
    checkEligibility sampleEligibilityRequest (.err "quota exceeded") (fun _ => none) =
      checkEligibility sampleEligibilityRequestOther (.err "quota exceeded")
        (fun _ => some Json.null) :=
  (degraded_response_depends_only_on_score_and_error
    sampleEligibilityRequest sampleEligibilityRequestOther "quota exceeded"
    (fun _ => none) (fun _ => some Json.null) rfl).1

end CapNest
